import Mathlib

/-!
Shallow embedding of `src/pal/src/misc/cgroup.cpp`: discovery of cgroup v1
memory/cpu limits for the current process, plus the working-set query.

Modelling conventions:
* A file system is a map from file names to `Option (List String)`: `none`
  means `fopen` fails, `some lines` gives the lines `getline` would return,
  each line including its trailing newline.
* Every function additionally returns the list of file names it opened, in
  order, so that claims about "no filesystem access" can be stated.
* Undefined behaviour actually reachable in the C source (passing a NULL
  pointer to `sscanf_s` or `strtoull`) is modelled as `Except.error ()`.
* C library text-to-number conversions (`strtoull` with base 0, `atoll`)
  are modelled with glibc semantics: `errno` is set only on range errors
  (ERANGE); a conversion that consumes no digits yields 0 with no error.
* Machine integers are modelled as `Nat`/`Int` with explicit `% 2 ^ 64`
  where `size_t` arithmetic can wrap; `SIZE_T_MAX`/`UINT_MAX` are the
  64-bit and 32-bit maxima of the reference platform.
* `PAL_malloc` failures are not modelled (allocation is assumed to
  succeed); output pointers are modelled by a `valIsNull` flag.
-/

namespace Cgroup

/-- Abstract read-only file system: file name to lines (with trailing
newline), or `none` when the file cannot be opened. -/
def FS : Type := String → Option (List String)

/-- Decidable equality for `Except`, needed to evaluate results that may
be the modelled undefined behaviour. -/
instance {ε α : Type} [DecidableEq ε] [DecidableEq α] : DecidableEq (Except ε α) := fun a b =>
  match a, b with
  | Except.error e, Except.error f =>
    if h : e = f then isTrue (congrArg Except.error h)
    else isFalse (fun hh => h (Except.error.inj hh))
  | Except.error _, Except.ok _ => isFalse (fun hh => Except.noConfusion hh)
  | Except.ok _, Except.error _ => isFalse (fun hh => Except.noConfusion hh)
  | Except.ok a, Except.ok b =>
    if h : a = b then isTrue (congrArg Except.ok h)
    else isFalse (fun hh => h (Except.ok.inj hh))

def PROC_MOUNTINFO_FILENAME : String := "/proc/self/mountinfo"

def PROC_CGROUP_FILENAME : String := "/proc/self/cgroup"

def PROC_STATM_FILENAME : String := "/proc/self/statm"

def MEM_LIMIT_FILENAME : String := "/memory.limit_in_bytes"

def CFS_QUOTA_FILENAME : String := "/cpu.cfs_quota_us"

def CFS_PERIOD_FILENAME : String := "/cpu.cfs_period_us"

/-- `SIZE_T_MAX` on the 64-bit reference platform. -/
def SIZE_T_MAX : Nat := 2 ^ 64 - 1

/-- `UINT_MAX` (32-bit `unsigned int`). -/
def UINT_MAX : Nat := 2 ^ 32 - 1

/-- C `isspace` characters (the `" \t\n\v\f\r"` set). -/
def isSpaceC (c : Char) : Bool :=
  c = ' ' || c = '\t' || c = '\n' || c = '\x0b' || c = '\x0c' || c = '\r'

/-- Drop leading `isspace` characters. -/
def skipSpaces : List Char → List Char
  | [] => []
  | c :: cs => if isSpaceC c then skipSpaces cs else c :: cs

/-- Maximal prefix of characters satisfying `p`, together with the rest. -/
def takeRun (p : Char → Bool) : List Char → List Char × List Char
  | [] => ([], [])
  | c :: cs =>
    if p c then
      let t := takeRun p cs
      (c :: t.1, t.2)
    else ([], c :: cs)

/-- The `sscanf` `%s` directive: skip whitespace, then read a maximal
nonempty run of non-whitespace characters; fails at end of input. -/
def scanField (s : List Char) : Option (List Char × List Char) :=
  let s1 := skipSpaces s
  let t := takeRun (fun c => ! isSpaceC c) s1
  match t.1 with
  | [] => none
  | _ => some (t.1, t.2)

/-- Helper for `strtokSplit`: accumulate the current token (reversed). -/
def strtokAux (delim : Char) : List Char → List Char → List (List Char)
  | [], acc => if acc = [] then [] else [acc.reverse]
  | c :: cs, acc =>
    if c = delim then
      if acc = [] then strtokAux delim cs []
      else acc.reverse :: strtokAux delim cs []
    else strtokAux delim cs (c :: acc)

/-- `strtok_s` token sequence of a string for a single-character delimiter
set: the maximal nonempty runs of non-delimiter characters. -/
def strtokSplit (delim : Char) (s : List Char) : List (List Char) :=
  strtokAux delim s []

/-- Value of a character as a digit in the given base (letters for
bases above 10, both cases), if it is one. -/
def digitVal (base : Nat) (c : Char) : Option Nat :=
  let d : Option Nat :=
    if '0' ≤ c ∧ c ≤ '9' then some (c.toNat - '0'.toNat)
    else if 'a' ≤ c ∧ c ≤ 'z' then some (c.toNat - 'a'.toNat + 10)
    else if 'A' ≤ c ∧ c ≤ 'Z' then some (c.toNat - 'A'.toNat + 10)
    else none
  match d with
  | some v => if v < base then some v else none
  | none => none

/-- Accumulate digits of the given base, returning the exact value and
the remaining characters. -/
def accumDigits (base : Nat) (acc : Nat) : List Char → Nat × List Char
  | [] => (acc, [])
  | c :: cs =>
    match digitVal base c with
    | some d => accumDigits base (acc * base + d) cs
    | none => (acc, c :: cs)

/-- Optional sign at the start of a numeric subject sequence. -/
def readSign : List Char → Bool × List Char
  | '-' :: r => (true, r)
  | '+' :: r => (false, r)
  | s => (false, s)

/-- Result of a C unsigned conversion: the returned value, the `endptr`
position, whether `errno` was set to ERANGE, and whether any digits were
consumed (no conversion leaves `endptr = nptr` and does not set errno). -/
structure CParse where
  value : Nat
  rest : List Char
  err : Bool
  converted : Bool
deriving DecidableEq

/-- Digit body of a base-0 `strtoull` subject sequence: hexadecimal after
`0x`/`0X` (a `0x` prefix with no following hex digit consumes just the
`0`), octal after a leading `0`, decimal otherwise; `none` when no digits
can be consumed. -/
def numBody : List Char → Option (Nat × List Char)
  | '0' :: x :: r =>
    if x = 'x' ∨ x = 'X' then
      match r with
      | c :: _ =>
        if (digitVal 16 c).isSome then some (accumDigits 16 0 r)
        else some (0, x :: r)
      | [] => some (0, [x])
    else some (accumDigits 8 0 ('0' :: x :: r))
  | ['0'] => some (0, [])
  | c :: r => if (digitVal 10 c).isSome then some (accumDigits 10 0 (c :: r)) else none
  | [] => none

/-- Clamp an unsigned conversion to `unsigned long long`: out-of-range
values return `ULLONG_MAX` with ERANGE; otherwise a leading minus sign
negates the value modulo `2 ^ 64`. -/
def ullFinalize (neg : Bool) (raw : Nat) : Nat × Bool :=
  if 2 ^ 64 ≤ raw then (2 ^ 64 - 1, true)
  else if neg then ((2 ^ 64 - raw) % 2 ^ 64, false)
  else (raw, false)

/-- glibc `strtoull(s, &endptr, 0)`. -/
def strtoull0 (s : List Char) : CParse :=
  let s1 := skipSpaces s
  let sg := readSign s1
  match numBody sg.2 with
  | none => ⟨0, s, false, false⟩
  | some nb =>
    let fin := ullFinalize sg.1 nb.1
    ⟨fin.1, nb.2, fin.2, true⟩

/-- Result of a C signed conversion (value, ERANGE flag, conversion flag). -/
structure CParseI where
  value : Int
  err : Bool
  converted : Bool
deriving DecidableEq

/-- Clamp a signed conversion to `long long`: out-of-range values return
`LLONG_MIN`/`LLONG_MAX` with ERANGE. -/
def llFinalize (neg : Bool) (raw : Nat) : Int × Bool :=
  if neg then
    if 2 ^ 63 < raw then (-(2 ^ 63 : Int), true) else (-(raw : Int), false)
  else
    if 2 ^ 63 ≤ raw then ((2 ^ 63 : Int) - 1, true) else ((raw : Int), false)

/-- glibc `atoll` = `strtoll(s, NULL, 10)`: decimal conversion; no digits
consumed means value 0 with errno untouched. -/
def strtoll10 (s : List Char) : CParseI :=
  let s1 := skipSpaces s
  let sg := readSign s1
  match sg.2 with
  | c :: r =>
    if (digitVal 10 c).isSome then
      let nb := accumDigits 10 0 (c :: r)
      let fin := llFinalize sg.1 nb.1
      ⟨fin.1, fin.2, true⟩
    else ⟨0, false, false⟩
  | [] => ⟨0, false, false⟩

/-- The unit-suffix multiplier switch of `ReadMemoryValueFromFile`,
with the C fallthrough semantics kept: `g`/`G` sets 1024 and then also
runs the `m` and `k` multiplications, `m`/`M` runs the `k` one. -/
def suffixMultiplier (c : Option Char) : Nat :=
  let m1 : Nat := if c = some 'g' ∨ c = some 'G' then 1024 else 1
  let m2 : Nat :=
    if c = some 'g' ∨ c = some 'G' ∨ c = some 'm' ∨ c = some 'M' then m1 * 1024 else m1
  let m3 : Nat :=
    if c = some 'g' ∨ c = some 'G' ∨ c = some 'm' ∨ c = some 'M' ∨ c = some 'k' ∨ c = some 'K'
    then m2 * 1024 else m2
  m3

/-- Straight-line body of `CGroup::ReadMemoryValueFromFile` once the first
line has been read: `strtoull` with errno check, the suffix multiplier
switch, the `size_t` multiplication, and the division-based overflow
check (`*val/multiplier != num` makes the read fail). -/
def parseMemLine (line : String) : Option Nat :=
  let r := strtoull0 line.data
  if r.err then none
  else
    let multiplier := suffixMultiplier r.rest.head?
    let v := r.value * multiplier % 2 ^ 64
    if v / multiplier = r.value then some v else none

/-- `CGroup::ReadMemoryValueFromFile`. -/
def ReadMemoryValueFromFile (valIsNull : Bool) (filename : String) (fs : FS) :
    Option Nat × List String :=
  match valIsNull with
  | true => (none, [])
  | false =>
    match fs filename with
    | none => (none, [filename])
    | some [] => (none, [filename])
    | some (line :: _) => (parseMemLine line, [filename])

/-- Straight-line body of `CGroup::ReadLongLongValueFromFile` once the
first line has been read: `atoll` with errno check. -/
def parseLongLongLine (line : String) : Option Int :=
  let r := strtoll10 line.data
  if r.err then none else some r.value

/-- `CGroup::ReadLongLongValueFromFile`. -/
def ReadLongLongValueFromFile (valIsNull : Bool) (filename : String) (fs : FS) :
    Option Int × List String :=
  match valIsNull with
  | true => (none, [])
  | false =>
    match fs filename with
    | none => (none, [filename])
    | some [] => (none, [filename])
    | some (line :: _) => (parseLongLongLine line, [filename])

/-- `CGroup::IsMemorySubsystem` (`strcmp("memory", strTok) == 0`). -/
def IsMemorySubsystem (strTok : String) : Bool := strTok == "memory"

/-- `CGroup::IsCpuSubsystem` (`strcmp("cpu", strTok) == 0`). -/
def IsCpuSubsystem (strTok : String) : Bool := strTok == "cpu"

/-- First suffix of the line starting at a `-` character (`strchr(line, '-')`);
`none` models a NULL result. -/
def strchrDash : List Char → Option (List Char)
  | [] => none
  | c :: cs => if c = '-' then some (c :: cs) else strchrDash cs

/-- `strncmp(filesystemType, "cgroup", 6) == 0`. -/
def startsWithCgroup : List Char → Bool
  | 'c' :: 'g' :: 'r' :: 'o' :: 'u' :: 'p' :: _ => true
  | _ => false

/-- `sscanf_s(separatorChar, "- %s %*s %s", filesystemType, options)`:
the literal `-`, then the filesystem type, a skipped field, and the
super-options field; `none` when fewer than 2 conversions succeed. -/
def parseAfterSeparator (sep : List Char) : Option (List Char × List Char) :=
  match sep with
  | '-' :: r0 =>
    match scanField r0 with
    | none => none
    | some ft =>
      match scanField ft.2 with
      | none => none
      | some sk =>
        match scanField sk.2 with
        | none => none
        | some op => some (ft.1, op.1)
  | _ => none

/-- `sscanf_s(line, "%*s %*s %*s %*s %s ", mountpath)`: the fifth
whitespace-delimited field of a mountinfo line. -/
def scanFifthField (line : List Char) : Option String :=
  match scanField line with
  | none => none
  | some f1 =>
    match scanField f1.2 with
    | none => none
    | some f2 =>
      match scanField f2.2 with
      | none => none
      | some f3 =>
        match scanField f3.2 with
        | none => none
        | some f4 =>
          match scanField f4.2 with
          | none => none
          | some f5 => some (String.mk f5.1)

/-- Per-line loop of `CGroup::FindHierarchyMount`. A line with no `-`
character makes the C code pass NULL to `sscanf_s`: undefined behaviour,
modelled as `Except.error ()`. A line whose post-separator fields do not
parse aborts the whole scan with "not found" (`goto done`). -/
def FindHierarchyMountLoop (is_subsystem : String → Bool) :
    List String → Except Unit (Option String)
  | [] => Except.ok none
  | line :: rest =>
    match strchrDash line.data with
    | none => Except.error ()
    | some sep =>
      match parseAfterSeparator sep with
      | none => Except.ok none
      | some fo =>
        if startsWithCgroup fo.1 then
          if (strtokSplit ',' fo.2).any (fun t => is_subsystem (String.mk t)) then
            match scanFifthField line.data with
            | some mountpath => Except.ok (some mountpath)
            | none => Except.ok none
          else FindHierarchyMountLoop is_subsystem rest
        else FindHierarchyMountLoop is_subsystem rest

/-- `CGroup::FindHierarchyMount`. -/
def FindHierarchyMount (is_subsystem : String → Bool) (fs : FS) :
    Except Unit (Option String) × List String :=
  match fs PROC_MOUNTINFO_FILENAME with
  | none => (Except.ok none, [PROC_MOUNTINFO_FILENAME])
  | some lines => (FindHierarchyMountLoop is_subsystem lines, [PROC_MOUNTINFO_FILENAME])

/-- `sscanf_s(line, "%*[^:]:%[^:]:%s", subsystem_list, cgroup_path)`:
a nonempty id field, a colon, a nonempty subsystem list, a colon, and the
`%s`-scanned cgroup path; `none` when fewer than 2 conversions succeed. -/
def parseCgroupLine (line : String) : Option (String × String) :=
  let t0 := takeRun (fun c => c ≠ ':') line.data
  match t0.1 with
  | [] => none
  | _ =>
    match t0.2 with
    | ':' :: s1 =>
      let t1 := takeRun (fun c => c ≠ ':') s1
      match t1.1 with
      | [] => none
      | _ =>
        match t1.2 with
        | ':' :: s2 =>
          match scanField s2 with
          | some f => some (String.mk t1.1, String.mk f.1)
          | none => none
        | _ => none
    | _ => none

/-- Whether the comma-separated subsystem list of a line contains a token
accepted by the predicate (the `strtok_s` loop over `subsystem_list`). -/
def subsystemListMatches (is_subsystem : String → Bool) (subsystem_list : String) : Bool :=
  (strtokSplit ',' subsystem_list.data).any (fun t => is_subsystem (String.mk t))

/-- Whether a `/proc/self/cgroup` line parses and its subsystem list
matches the predicate. -/
def cgroupLineMatches (is_subsystem : String → Bool) (line : String) : Bool :=
  match parseCgroupLine line with
  | none => false
  | some sp => subsystemListMatches is_subsystem sp.1

/-- Per-line loop of `CGroup::FindCGroupPathForSubsystem`: a malformed
line aborts the scan with "not found" (`goto done` with `result` false);
the first matching line stops the loop and its path is returned. -/
def FindCGroupPathLoop (is_subsystem : String → Bool) : List String → Option String
  | [] => none
  | line :: rest =>
    match parseCgroupLine line with
    | none => none
    | some sp =>
      if subsystemListMatches is_subsystem sp.1 then some sp.2
      else FindCGroupPathLoop is_subsystem rest

/-- `CGroup::FindCGroupPathForSubsystem`. -/
def FindCGroupPathForSubsystem (is_subsystem : String → Bool) (fs : FS) :
    Option String × List String :=
  match fs PROC_CGROUP_FILENAME with
  | none => (none, [PROC_CGROUP_FILENAME])
  | some lines => (FindCGroupPathLoop is_subsystem lines, [PROC_CGROUP_FILENAME])

/-- `CGroup::FindMemoryCgroupPath`: hierarchy mount and relative path,
concatenated. -/
def FindMemoryCgroupPath (fs : FS) : Except Unit (Option String) × List String :=
  match FindHierarchyMount IsMemorySubsystem fs with
  | (Except.error e, t) => (Except.error e, t)
  | (Except.ok none, t) => (Except.ok none, t)
  | (Except.ok (some mnt), t) =>
    match FindCGroupPathForSubsystem IsMemorySubsystem fs with
    | (none, t2) => (Except.ok none, t ++ t2)
    | (some rel, t2) => (Except.ok (some (mnt ++ rel)), t ++ t2)

/-- `CGroup::FindCpuCgroupPath`. -/
def FindCpuCgroupPath (fs : FS) : Except Unit (Option String) × List String :=
  match FindHierarchyMount IsCpuSubsystem fs with
  | (Except.error e, t) => (Except.error e, t)
  | (Except.ok none, t) => (Except.ok none, t)
  | (Except.ok (some mnt), t) =>
    match FindCGroupPathForSubsystem IsCpuSubsystem fs with
    | (none, t2) => (Except.ok none, t ++ t2)
    | (some rel, t2) => (Except.ok (some (mnt ++ rel)), t ++ t2)

/-- The two resolved-directory members of a `CGroup` object; `none` is
the "unknown" (NULL) state. -/
structure CGroupState where
  m_memory_cgroup_path : Option String
  m_cpu_cgroup_path : Option String
deriving DecidableEq

/-- The `CGroup` constructor: resolve both directories eagerly. -/
def CGroupCtor (fs : FS) : Except Unit CGroupState × List String :=
  match FindMemoryCgroupPath fs with
  | (Except.error e, t) => (Except.error e, t)
  | (Except.ok m, t) =>
    match FindCpuCgroupPath fs with
    | (Except.error e, t2) => (Except.error e, t ++ t2)
    | (Except.ok c, t2) => (Except.ok ⟨m, c⟩, t ++ t2)

/-- `CGroup::GetPhysicalMemoryLimit`: fails at once when the memory
directory is unknown, otherwise reads `<dir>/memory.limit_in_bytes`. -/
def GetPhysicalMemoryLimit (m_memory_cgroup_path : Option String) (fs : FS) :
    Option Nat × List String :=
  match m_memory_cgroup_path with
  | none => (none, [])
  | some p => ReadMemoryValueFromFile false (p ++ MEM_LIMIT_FILENAME) fs

/-- `CGroup::ReadCpuCGroupValue`: -1 when the cpu directory is unknown or
the signed read fails. -/
def ReadCpuCGroupValue (m_cpu_cgroup_path : Option String) (subsystemFilename : String)
    (fs : FS) : Int × List String :=
  match m_cpu_cgroup_path with
  | none => (-1, [])
  | some p =>
    match (ReadLongLongValueFromFile false (p ++ subsystemFilename) fs).1 with
    | none => (-1, (ReadLongLongValueFromFile false (p ++ subsystemFilename) fs).2)
    | some v => (v, (ReadLongLongValueFromFile false (p ++ subsystemFilename) fs).2)

/-- `CGroup::GetCpuLimit`. -/
def GetCpuLimit (m_cpu_cgroup_path : Option String) (fs : FS) : Option Nat × List String :=
  let quota := (ReadCpuCGroupValue m_cpu_cgroup_path CFS_QUOTA_FILENAME fs).1
  let t1 := (ReadCpuCGroupValue m_cpu_cgroup_path CFS_QUOTA_FILENAME fs).2
  if quota ≤ 0 then (none, t1)
  else
    let period := (ReadCpuCGroupValue m_cpu_cgroup_path CFS_PERIOD_FILENAME fs).1
    let t2 := (ReadCpuCGroupValue m_cpu_cgroup_path CFS_PERIOD_FILENAME fs).2
    if period ≤ 0 then (none, t1 ++ t2)
    else if quota ≤ period then (some 1, t1 ++ t2)
    else
      let cpu_count := quota.toNat / period.toNat
      if cpu_count < UINT_MAX then (some cpu_count, t1 ++ t2)
      else (some UINT_MAX, t1 ++ t2)

/-- Tail of `PAL_GetRestrictedPhysicalMemoryLimit` after the cgroup read:
`SIZE_T_MAX` stands for "no cgroup limit", `rlim`/`pages`/`pageSize` are
the `getrlimit(RLIMIT_AS)` soft limit and the two `sysconf` results
(`none` models the failing call; an infinite rlimit arrives as
`SIZE_T_MAX`); the product is `size_t` arithmetic; a final `SIZE_T_MAX`
becomes the sentinel 0. -/
def combineLimits (cg : Option Nat) (rlim pages pageSize : Option Nat) : Nat :=
  let pml0 := match cg with | some v => v | none => SIZE_T_MAX
  let pml1 := min pml0 (match rlim with | some r => r | none => SIZE_T_MAX)
  let pml2 :=
    match pages, pageSize with
    | some a, some b => min pml1 (a * b % 2 ^ 64)
    | _, _ => pml1
  if pml2 = SIZE_T_MAX then 0 else pml2

/-- `PAL_GetRestrictedPhysicalMemoryLimit`. -/
def PAL_GetRestrictedPhysicalMemoryLimit (fs : FS) (rlim pages pageSize : Option Nat) :
    Except Unit Nat × List String :=
  match CGroupCtor fs with
  | (Except.error e, t) => (Except.error e, t)
  | (Except.ok st, t) =>
    (Except.ok (combineLimits (GetPhysicalMemoryLimit st.m_memory_cgroup_path fs).1
        rlim pages pageSize),
      t ++ (GetPhysicalMemoryLimit st.m_memory_cgroup_path fs).2)

/-- `PAL_GetWorkingSetSize`: the second `strtok_s` result may be NULL
(line with fewer than two space-separated fields), in which case the C
code passes NULL to `strtoull`: undefined behaviour, `Except.error ()`. -/
def PAL_GetWorkingSetSize (valIsNull : Bool) (pageSize : Nat) (fs : FS) :
    Except Unit (Option Nat) × List String :=
  match valIsNull with
  | true => (Except.ok none, [])
  | false =>
    match fs PROC_STATM_FILENAME with
    | none => (Except.ok none, [PROC_STATM_FILENAME])
    | some [] => (Except.ok none, [PROC_STATM_FILENAME])
    | some (line :: _) =>
      match strtokSplit ' ' line.data with
      | _ :: second :: _ =>
        let r := strtoull0 second
        if r.err then (Except.ok none, [PROC_STATM_FILENAME])
        else (Except.ok (some (r.value * pageSize % 2 ^ 64)), [PROC_STATM_FILENAME])
      | _ => (Except.error (), [PROC_STATM_FILENAME])

/-- `PAL_GetCpuLimit`: note that the `CGroup` constructor runs (and reads
the mount/cgroup files) before the NULL check on `val`. -/
def PAL_GetCpuLimit (valIsNull : Bool) (fs : FS) : Except Unit (Option Nat) × List String :=
  match CGroupCtor fs with
  | (Except.error e, t) => (Except.error e, t)
  | (Except.ok st, t) =>
    match valIsNull with
    | true => (Except.ok none, t)
    | false =>
      (Except.ok (GetCpuLimit st.m_cpu_cgroup_path fs).1,
        t ++ (GetCpuLimit st.m_cpu_cgroup_path fs).2)

/-- Diagnostic view used to state claim C1: the outcome of the cgroup
memory-limit read performed inside `PAL_GetRestrictedPhysicalMemoryLimit`
(constructor crash propagated, otherwise the read's result). -/
def cgMemRead (fs : FS) : Except Unit (Option Nat) :=
  match CGroupCtor fs with
  | (Except.error e, _) => Except.error e
  | (Except.ok st, _) => Except.ok (GetPhysicalMemoryLimit st.m_memory_cgroup_path fs).1

/-- Minimum of a list of naturals, `none` for the empty list. -/
def minList : List Nat → Option Nat
  | [] => none
  | x :: xs => some (xs.foldl min x)

/-- Formalised from the wording of claim C1: the set of bounds is the
cgroup limit (when the read succeeded), the address-space soft limit
(when `getrlimit` succeeded and the limit is finite), and pages times
page size (when both are queryable). -/
def boundsOfClaim (cg rlim pages pageSize : Option Nat) : List Nat :=
  (match cg with | some v => [v] | none => []) ++
  (match rlim with | some r => if r = SIZE_T_MAX then [] else [r] | none => []) ++
  (match pages, pageSize with | some a, some b => [a * b] | _, _ => [])

/-- Formalised from the wording of claim C1: the minimum of the available
bounds, and the sentinel 0 when no source yields a bound. -/
def claimedMemoryLimit (cg rlim pages pageSize : Option Nat) : Nat :=
  (minList (boundsOfClaim cg rlim pages pageSize)).getD 0

/-- Amended form of claim C1: like `claimedMemoryLimit`, except that a
minimum equal to `SIZE_T_MAX` is also reported as the sentinel 0 (the
code maps the final value `SIZE_T_MAX` to 0 whether or not a source
yielded exactly that bound). -/
def claimedMemoryLimitAmended (cg rlim pages pageSize : Option Nat) : Nat :=
  (minList (boundsOfClaim cg rlim pages pageSize)).elim 0
    (fun m => if m = SIZE_T_MAX then 0 else m)

/-- Fixture: a memory cgroup whose `memory.limit_in_bytes` reads exactly
`SIZE_T_MAX`. -/
def fsMemMax : FS := fun name =>
  if name = PROC_MOUNTINFO_FILENAME then
    some ["36 35 98:0 / /cgmem rw shared:1 - cgroup cgroup rw,memory\n"]
  else if name = PROC_CGROUP_FILENAME then
    some ["4:memory:/x\n"]
  else if name = "/cgmem/x/memory.limit_in_bytes" then
    some ["18446744073709551615\n"]
  else none

/-- Fixture: cpu control files with quota 250000 and period 100000. -/
def fsCpu : FS := fun name =>
  if name = "/cgcpu/y/cpu.cfs_quota_us" then some ["250000\n"]
  else if name = "/cgcpu/y/cpu.cfs_period_us" then some ["100000\n"]
  else none

/-- Fixture: byte-count files exercising each unit suffix. -/
def fsSuffix : FS := fun name =>
  if name = "/suffix/one" then some ["1\n"]
  else if name = "/suffix/onek" then some ["1k\n"]
  else if name = "/suffix/onem" then some ["1m\n"]
  else if name = "/suffix/oneg" then some ["1g\n"]
  else if name = "/suffix/sevenm" then some ["7m\n"]
  else none

/-- Fixture: a byte-count whose suffix multiplication overflows 64 bits. -/
def fsOverflow : FS := fun name =>
  if name = "/ovf/memory.limit_in_bytes" then some ["18446744073709551615k\n"]
  else none

/-- Fixture: a mountinfo line that contains no `-` separator at all. -/
def fsNoDash : FS := fun name =>
  if name = PROC_MOUNTINFO_FILENAME then
    some ["36 35 98:0 / /sys/fs/cgroup/memory rw shared:1 cgroup cgroup rw,memory\n"]
  else none

/-- Fixture: a mountinfo line whose `-` separator is followed by no
fields. -/
def fsDashNoFields : FS := fun name =>
  if name = PROC_MOUNTINFO_FILENAME then some ["a b - \n"] else none

/-- Fixture: limit files whose first line holds no number at all. -/
def fsHello : FS := fun name =>
  if name = "/hello/memory.limit_in_bytes" then some ["hello\n"]
  else if name = "/hello/cpu.cfs_quota_us" then some ["hello\n"]
  else none

/-- Fixture: a `/proc/self/cgroup` listing in which two lines match the
memory subsystem. -/
def fsCgroupTwo : FS := fun name =>
  if name = PROC_CGROUP_FILENAME then
    some ["3:cpu:/cpuhier\n", "2:memory:/first\n", "1:memory:/second\n"]
  else none

/-- Fixture: a statm line with a single field. -/
def fsStatmOne : FS := fun name =>
  if name = PROC_STATM_FILENAME then some ["12345\n"] else none

/-- Fixture: a well-formed statm line. -/
def fsStatmOk : FS := fun name =>
  if name = PROC_STATM_FILENAME then some ["4000 678 300 5 0 200 0\n"] else none

/-- Fixture: a file system where every open fails. -/
def fsAllClosed : FS := fun _ => none

theorem suffixMultiplier_cases (c : Option Char) :
    suffixMultiplier c = 1 ∨ suffixMultiplier c = 1024 ∨
    suffixMultiplier c = 1048576 ∨ suffixMultiplier c = 1073741824 := by
  simp only [suffixMultiplier]
  split_ifs <;> norm_num

theorem suffixMultiplier_pos (c : Option Char) : 0 < suffixMultiplier c := by
  rcases suffixMultiplier_cases c with h | h | h | h <;> rw [h] <;> norm_num

theorem suffixMultiplier_dvd (c : Option Char) : suffixMultiplier c ∣ 2 ^ 64 := by
  rcases suffixMultiplier_cases c with h | h | h | h <;> rw [h]
  · exact ⟨2 ^ 64, by norm_num⟩
  · exact ⟨2 ^ 54, by norm_num⟩
  · exact ⟨2 ^ 44, by norm_num⟩
  · exact ⟨2 ^ 34, by norm_num⟩

theorem memCheck_iff (n m : Nat) (hm : 0 < m) (hdvd : m ∣ 2 ^ 64) :
    n * m % 2 ^ 64 / m = n ↔ n * m < 2 ^ 64 := by
  obtain ⟨M, hM⟩ := hdvd
  have hM0 : 0 < M := by
    rcases Nat.eq_zero_or_pos M with h0 | h0
    · rw [h0, Nat.mul_zero] at hM
      exact absurd hM (by norm_num)
    · exact h0
  rw [hM, Nat.mul_comm n m, Nat.mul_mod_mul_left, Nat.mul_div_cancel_left _ hm]
  constructor
  · intro h
    have hlt : n % M < M := Nat.mod_lt _ hM0
    rw [h] at hlt
    exact mul_lt_mul_of_pos_left hlt hm
  · intro h
    exact Nat.mod_eq_of_lt (lt_of_mul_lt_mul_left h (Nat.zero_le m))

theorem parseMemLine_eq (line : String) :
    parseMemLine line =
      (if (strtoull0 line.data).err = true then none
       else if (strtoull0 line.data).value * suffixMultiplier (strtoull0 line.data).rest.head?
           < 2 ^ 64
         then some ((strtoull0 line.data).value * suffixMultiplier (strtoull0 line.data).rest.head?)
         else none) := by
  have hm := suffixMultiplier_pos (strtoull0 line.data).rest.head?
  have hdvd := suffixMultiplier_dvd (strtoull0 line.data).rest.head?
  simp only [parseMemLine]
  by_cases he : (strtoull0 line.data).err = true
  · rw [if_pos he, if_pos he]
  · rw [if_neg he, if_neg he]
    simp only [memCheck_iff _ _ hm hdvd]
    by_cases hlt :
        (strtoull0 line.data).value * suffixMultiplier (strtoull0 line.data).rest.head? < 2 ^ 64
    · rw [if_pos hlt, if_pos hlt, Nat.mod_eq_of_lt hlt]
    · rw [if_neg hlt, if_neg hlt]

theorem parseMemLine_lt (line : String) (v : Nat) (h : parseMemLine line = some v) :
    v < 2 ^ 64 := by
  rw [parseMemLine_eq] at h
  split_ifs at h with h1 h2
  · injection h with h3
    rw [← h3]
    exact h2

theorem ReadMemoryValueFromFile_line (filename : String) (fs : FS) (line : String)
    (rest : List String) (h : fs filename = some (line :: rest)) :
    (ReadMemoryValueFromFile false filename fs).1 = parseMemLine line := by
  simp only [ReadMemoryValueFromFile, h]

theorem ReadLongLongValueFromFile_line (filename : String) (fs : FS) (line : String)
    (rest : List String) (h : fs filename = some (line :: rest)) :
    (ReadLongLongValueFromFile false filename fs).1 = parseLongLongLine line := by
  simp only [ReadLongLongValueFromFile, h]

theorem ReadMemoryValueFromFile_some_lt (filename : String) (fs : FS) (v : Nat)
    (h : (ReadMemoryValueFromFile false filename fs).1 = some v) : v < 2 ^ 64 := by
  rcases hf : fs filename with _ | lines
  · simp [ReadMemoryValueFromFile, hf] at h
  · rcases lines with _ | ⟨line, rest⟩
    · simp [ReadMemoryValueFromFile, hf] at h
    · rw [ReadMemoryValueFromFile_line filename fs line rest hf] at h
      exact parseMemLine_lt line v h

theorem GetPhysicalMemoryLimit_some_lt (mp : Option String) (fs : FS) (v : Nat)
    (h : (GetPhysicalMemoryLimit mp fs).1 = some v) : v < 2 ^ 64 := by
  rcases mp with _ | p
  · simp [GetPhysicalMemoryLimit] at h
  · exact ReadMemoryValueFromFile_some_lt (p ++ MEM_LIMIT_FILENAME) fs v
      (by simpa [GetPhysicalMemoryLimit] using h)

theorem strtoull0_noconv (s : List Char) (h : (strtoull0 s).converted = false) :
    strtoull0 s = ⟨0, s, false, false⟩ := by
  simp only [strtoull0] at h ⊢
  cases hnb : numBody (readSign (skipSpaces s)).2 with
  | none => rfl
  | some nb => simp [hnb] at h

theorem strtoll10_noconv (s : List Char) (h : (strtoll10 s).converted = false) :
    strtoll10 s = ⟨0, false, false⟩ := by
  simp only [strtoll10] at h ⊢
  cases hsg : (readSign (skipSpaces s)).2 with
  | nil => rfl
  | cons c r =>
    by_cases hd : (digitVal 10 c).isSome = true
    · simp [hsg, hd] at h
    · simp [hsg, hd]

theorem GetCpuLimit_eq (m_cpu_cgroup_path : Option String) (fs : FS) :
    (GetCpuLimit m_cpu_cgroup_path fs).1 =
      (if (ReadCpuCGroupValue m_cpu_cgroup_path CFS_QUOTA_FILENAME fs).1 ≤ 0 then none
       else if (ReadCpuCGroupValue m_cpu_cgroup_path CFS_PERIOD_FILENAME fs).1 ≤ 0 then none
       else if (ReadCpuCGroupValue m_cpu_cgroup_path CFS_QUOTA_FILENAME fs).1 ≤
           (ReadCpuCGroupValue m_cpu_cgroup_path CFS_PERIOD_FILENAME fs).1 then some 1
       else if (ReadCpuCGroupValue m_cpu_cgroup_path CFS_QUOTA_FILENAME fs).1.toNat /
           (ReadCpuCGroupValue m_cpu_cgroup_path CFS_PERIOD_FILENAME fs).1.toNat < UINT_MAX
         then some ((ReadCpuCGroupValue m_cpu_cgroup_path CFS_QUOTA_FILENAME fs).1.toNat /
           (ReadCpuCGroupValue m_cpu_cgroup_path CFS_PERIOD_FILENAME fs).1.toNat)
         else some UINT_MAX) := by
  simp only [GetCpuLimit]
  split_ifs <;> rfl

/-- Claim C9: when a resolved cgroup directory is in the unknown (null)
state, every read that depends on it — the memory-limit read, and the cpu
quota/period reads inside the CPU-limit query — fails immediately and
opens no file (its result and empty access trace are independent of the
file system); the directory arguments are immutable values, never
re-derived. -/
theorem C9_unknown_directory (fs : FS) (fname : String) :
    GetPhysicalMemoryLimit none fs = (none, []) ∧
    ReadCpuCGroupValue none fname fs = (-1, []) ∧
    GetCpuLimit none fs = (none, []) :=
  ⟨rfl, rfl, rfl⟩

/-- Claim C2: the CPU-limit query fails whenever the quota or period read
fails (the read wrapper yields -1) or either value is non-positive; with
both positive it returns 1 when quota ≤ period and otherwise
floor(quota/period) clamped to `UINT_MAX`; every successful result is at
least 1. -/
theorem C2_cpu_limit (m_cpu_cgroup_path : Option String) (fs : FS) (q p : Int)
    (hq : (ReadCpuCGroupValue m_cpu_cgroup_path CFS_QUOTA_FILENAME fs).1 = q)
    (hp : (ReadCpuCGroupValue m_cpu_cgroup_path CFS_PERIOD_FILENAME fs).1 = p) :
    (q ≤ 0 → (GetCpuLimit m_cpu_cgroup_path fs).1 = none) ∧
    (0 < q → p ≤ 0 → (GetCpuLimit m_cpu_cgroup_path fs).1 = none) ∧
    (0 < q → 0 < p → q ≤ p → (GetCpuLimit m_cpu_cgroup_path fs).1 = some 1) ∧
    (0 < q → 0 < p → p < q →
      (GetCpuLimit m_cpu_cgroup_path fs).1 = some (min (q.toNat / p.toNat) UINT_MAX)) ∧
    (∀ pth, m_cpu_cgroup_path = some pth →
      (ReadLongLongValueFromFile false (pth ++ CFS_QUOTA_FILENAME) fs).1 = none → q = -1) ∧
    (∀ pth, m_cpu_cgroup_path = some pth →
      (ReadLongLongValueFromFile false (pth ++ CFS_PERIOD_FILENAME) fs).1 = none → p = -1) ∧
    (m_cpu_cgroup_path = none → q = -1 ∧ p = -1) ∧
    (∀ n, (GetCpuLimit m_cpu_cgroup_path fs).1 = some n → 1 ≤ n) := by
  refine ⟨?_, ?_, ?_, ?_, ?_, ?_, ?_, ?_⟩
  · intro h
    rw [GetCpuLimit_eq]
    simp only [hq, hp]
    rw [if_pos h]
  · intro h0 h1
    rw [GetCpuLimit_eq]
    simp only [hq, hp]
    rw [if_neg (not_le.mpr h0), if_pos h1]
  · intro h0 h1 h2
    rw [GetCpuLimit_eq]
    simp only [hq, hp]
    rw [if_neg (not_le.mpr h0), if_neg (not_le.mpr h1), if_pos h2]
  · intro h0 h1 h2
    rw [GetCpuLimit_eq]
    simp only [hq, hp]
    rw [if_neg (not_le.mpr h0), if_neg (not_le.mpr h1), if_neg (not_le.mpr h2)]
    by_cases hcc : q.toNat / p.toNat < UINT_MAX
    · rw [if_pos hcc, min_eq_left (le_of_lt hcc)]
    · rw [if_neg hcc, min_eq_right (le_of_not_lt hcc)]
  · intro pth hpath hnone
    rw [← hq, hpath]
    simp [ReadCpuCGroupValue, hnone]
  · intro pth hpath hnone
    rw [← hp, hpath]
    simp [ReadCpuCGroupValue, hnone]
  · intro hnone
    constructor
    · rw [← hq, hnone]
      rfl
    · rw [← hp, hnone]
      rfl
  · intro n hsome
    rw [GetCpuLimit_eq] at hsome
    simp only [hq, hp] at hsome
    split_ifs at hsome with h1 h2 h3 h4
    · have h5 := Option.some.inj hsome
      omega
    · have h5 := Option.some.inj hsome
      have hp4 : 0 < p.toNat := by omega
      have hle : p.toNat ≤ q.toNat := by omega
      have h1d : 1 ≤ q.toNat / p.toNat := (Nat.one_le_div_iff hp4).mpr hle
      rw [← h5]
      exact h1d
    · have h5 := Option.some.inj hsome
      rw [← h5]
      norm_num [UINT_MAX]

/-- Witness for claim C2: quota 250000 and period 100000 give the clamped
quotient (2 logical CPUs). -/
theorem C2_cpu_limit_witness :
    (GetCpuLimit (some "/cgcpu/y") fsCpu).1 =
      some (min ((250000 : Int).toNat / (100000 : Int).toNat) UINT_MAX) :=
  (C2_cpu_limit (some "/cgcpu/y") fsCpu 250000 100000 (by decide) (by decide)).2.2.2.1
    (by decide) (by decide) (by decide)

/-- Claim C3: when the first line of the file parses to `n` with a given
suffix character, a successful read returns `n` times the suffix
multiplier; the multipliers are 1 (none), 1024 (`k`/`K`), 1048576
(`m`/`M`), 1073741824 (`g`/`G`, the cumulative fallthrough product); in
particular "1" gives 1, "1k" 1024, "1m" 1048576, "1g" 1073741824. -/
theorem C3_suffix_multiplier (filename : String) (fs : FS) (line : String) (rest : List String)
    (h : fs filename = some (line :: rest))
    (herr : (strtoull0 line.data).err = false)
    (hfit : (strtoull0 line.data).value * suffixMultiplier (strtoull0 line.data).rest.head?
      < 2 ^ 64) :
    ((ReadMemoryValueFromFile false filename fs).1 =
      some ((strtoull0 line.data).value * suffixMultiplier (strtoull0 line.data).rest.head?)) ∧
    suffixMultiplier none = 1 ∧
    suffixMultiplier (some 'k') = 1024 ∧ suffixMultiplier (some 'K') = 1024 ∧
    suffixMultiplier (some 'm') = 1048576 ∧ suffixMultiplier (some 'M') = 1048576 ∧
    suffixMultiplier (some 'g') = 1073741824 ∧ suffixMultiplier (some 'G') = 1073741824 ∧
    (ReadMemoryValueFromFile false "/suffix/one" fsSuffix).1 = some 1 ∧
    (ReadMemoryValueFromFile false "/suffix/onek" fsSuffix).1 = some 1024 ∧
    (ReadMemoryValueFromFile false "/suffix/onem" fsSuffix).1 = some 1048576 ∧
    (ReadMemoryValueFromFile false "/suffix/oneg" fsSuffix).1 = some 1073741824 := by
  refine ⟨?_, by decide, by decide, by decide, by decide, by decide, by decide, by decide,
    by decide, by decide, by decide, by decide⟩
  rw [ReadMemoryValueFromFile_line filename fs line rest h, parseMemLine_eq]
  rw [if_neg (by simp [herr]), if_pos hfit]

/-- Witness for claim C3: a "7m" line yields 7 times the `m` multiplier. -/
theorem C3_suffix_multiplier_witness :
    (ReadMemoryValueFromFile false "/suffix/sevenm" fsSuffix).1 =
      some ((strtoull0 ("7m\n").data).value *
        suffixMultiplier (strtoull0 ("7m\n").data).rest.head?) :=
  (C3_suffix_multiplier "/suffix/sevenm" fsSuffix "7m\n" [] (by decide) (by decide)
    (by decide)).1

/-- Claim C4: when the parsed value times the suffix multiplier does not
fit in 64 bits the byte-count reader fails instead of wrapping, and every
successful result equals the exact mathematical product. -/
theorem C4_overflow_detected (filename : String) (fs : FS) (line : String) (rest : List String)
    (h : fs filename = some (line :: rest)) :
    (2 ^ 64 ≤ (strtoull0 line.data).value * suffixMultiplier (strtoull0 line.data).rest.head? →
      (ReadMemoryValueFromFile false filename fs).1 = none) ∧
    (∀ v, (ReadMemoryValueFromFile false filename fs).1 = some v →
      v = (strtoull0 line.data).value * suffixMultiplier (strtoull0 line.data).rest.head?) := by
  rw [ReadMemoryValueFromFile_line filename fs line rest h, parseMemLine_eq]
  constructor
  · intro hge
    split_ifs with h1 h2
    · rfl
    · exact absurd h2 (not_lt.mpr hge)
    · rfl
  · intro v hv
    split_ifs at hv with h1 h2
    · exact (Option.some.inj hv).symm

/-- Witness for claim C4: `ULLONG_MAX` with a `k` suffix overflows and the
reader fails. -/
theorem C4_overflow_detected_witness :
    (ReadMemoryValueFromFile false "/ovf/memory.limit_in_bytes" fsOverflow).1 = none :=
  (C4_overflow_detected "/ovf/memory.limit_in_bytes" fsOverflow "18446744073709551615k\n" []
    (by decide)).1 (by decide)

/-- Claim C5 (code bug): on a mountinfo line containing no `-` separator
the Hierarchy Locator does not fail closed — `strchr` returns NULL and
the code passes it to `sscanf_s`, which is undefined behaviour (a crash),
propagated to the public memory query; a line whose fields after the
separator are missing does fail closed with "not found". -/
theorem C5_mountinfo_crash :
    (FindHierarchyMount IsMemorySubsystem fsNoDash).1 = Except.error () ∧
    (PAL_GetRestrictedPhysicalMemoryLimit fsNoDash none none none).1 = Except.error () ∧
    (FindHierarchyMount IsMemorySubsystem fsDashNoFields).1 = Except.ok none :=
  ⟨by decide, by decide, by decide⟩

/-- Counterexample to claim C6: on a first line with no leading number
("hello") both readers report success with the default value 0 —
`strtoull`/`atoll` return 0 without setting errno — instead of failing. -/
theorem C6_counterexample :
    (ReadMemoryValueFromFile false "/hello/memory.limit_in_bytes" fsHello).1 = some 0 ∧
    (ReadLongLongValueFromFile false "/hello/cpu.cfs_quota_us" fsHello).1 = some 0 :=
  ⟨by decide, by decide⟩

/-- Claim C6 as amended: the readers fail on unreadable or empty files
and on out-of-range values (errno = ERANGE), but on a first line where
the conversion consumes no digits they report success with the value 0
returned by `strtoull`/`atoll`. -/
theorem C6_parse_failure_amended :
    (∀ (filename : String) (fs : FS), fs filename = none →
      (ReadMemoryValueFromFile false filename fs).1 = none) ∧
    (∀ (filename : String) (fs : FS), fs filename = some [] →
      (ReadMemoryValueFromFile false filename fs).1 = none) ∧
    (∀ (filename : String) (fs : FS), fs filename = none →
      (ReadLongLongValueFromFile false filename fs).1 = none) ∧
    (∀ (filename : String) (fs : FS), fs filename = some [] →
      (ReadLongLongValueFromFile false filename fs).1 = none) ∧
    (∀ (filename : String) (fs : FS) (line : String) (rest : List String),
      fs filename = some (line :: rest) → (strtoull0 line.data).converted = false →
      (ReadMemoryValueFromFile false filename fs).1 = some 0) ∧
    (∀ (filename : String) (fs : FS) (line : String) (rest : List String),
      fs filename = some (line :: rest) → (strtoll10 line.data).converted = false →
      (ReadLongLongValueFromFile false filename fs).1 = some 0) ∧
    (∀ (filename : String) (fs : FS) (line : String) (rest : List String),
      fs filename = some (line :: rest) → (strtoull0 line.data).err = true →
      (ReadMemoryValueFromFile false filename fs).1 = none) ∧
    (∀ (filename : String) (fs : FS) (line : String) (rest : List String),
      fs filename = some (line :: rest) → (strtoll10 line.data).err = true →
      (ReadLongLongValueFromFile false filename fs).1 = none) := by
  refine ⟨?_, ?_, ?_, ?_, ?_, ?_, ?_, ?_⟩
  · intro filename fs h
    simp [ReadMemoryValueFromFile, h]
  · intro filename fs h
    simp [ReadMemoryValueFromFile, h]
  · intro filename fs h
    simp [ReadLongLongValueFromFile, h]
  · intro filename fs h
    simp [ReadLongLongValueFromFile, h]
  · intro filename fs line rest h hconv
    rw [ReadMemoryValueFromFile_line filename fs line rest h]
    have hz := strtoull0_noconv line.data hconv
    simp [parseMemLine_eq, hz]
  · intro filename fs line rest h hconv
    rw [ReadLongLongValueFromFile_line filename fs line rest h]
    have hz := strtoll10_noconv line.data hconv
    simp [parseLongLongLine, hz]
  · intro filename fs line rest h herr
    rw [ReadMemoryValueFromFile_line filename fs line rest h]
    simp [parseMemLine_eq, herr]
  · intro filename fs line rest h herr
    rw [ReadLongLongValueFromFile_line filename fs line rest h]
    simp [parseLongLongLine, herr]

/-- Witness for the amended claim C6: the "hello" line makes the
byte-count reader succeed with 0. -/
theorem C6_parse_failure_amended_witness :
    (ReadMemoryValueFromFile false "/hello/memory.limit_in_bytes" fsHello).1 = some 0 :=
  C6_parse_failure_amended.2.2.2.2.1 "/hello/memory.limit_in_bytes" fsHello "hello\n" []
    (by decide) (by decide)

theorem FindCGroupPathLoop_match (is_sub : String → Bool) (pre : List String) (line : String)
    (post : List String) (subs path : String)
    (hpre : ∀ l ∈ pre, (parseCgroupLine l).isSome = true ∧ cgroupLineMatches is_sub l = false)
    (hline : parseCgroupLine line = some (subs, path))
    (hmatch : cgroupLineMatches is_sub line = true) :
    FindCGroupPathLoop is_sub (pre ++ line :: post) = some path := by
  induction pre with
  | nil =>
    simp only [cgroupLineMatches, hline] at hmatch
    simp only [List.nil_append, FindCGroupPathLoop, hline]
    rw [if_pos hmatch]
  | cons l pre ih =>
    obtain ⟨hsome, hnomatch⟩ := hpre l (List.mem_cons_self l pre)
    rcases hps : parseCgroupLine l with _ | sp
    · rw [hps] at hsome
      exact absurd hsome (by simp)
    · simp only [cgroupLineMatches, hps] at hnomatch
      simp only [List.cons_append, FindCGroupPathLoop, hps]
      rw [if_neg (by simp [hnomatch])]
      exact ih (fun x hx => hpre x (List.mem_cons_of_mem l hx))

theorem FindCGroupPathLoop_nomatch (is_sub : String → Bool) (lines : List String)
    (hall : ∀ l ∈ lines, (parseCgroupLine l).isSome = true ∧ cgroupLineMatches is_sub l = false) :
    FindCGroupPathLoop is_sub lines = none := by
  induction lines with
  | nil => rfl
  | cons l rest ih =>
    obtain ⟨hsome, hnomatch⟩ := hall l (List.mem_cons_self l rest)
    rcases hps : parseCgroupLine l with _ | sp
    · rw [hps] at hsome
      exact absurd hsome (by simp)
    · simp only [cgroupLineMatches, hps] at hnomatch
      simp only [FindCGroupPathLoop, hps]
      rw [if_neg (by simp [hnomatch])]
      exact ih (fun x hx => hall x (List.mem_cons_of_mem l hx))

/-- Claim C7: the Process Cgroup Resolver returns the cgroup path of the
first membership line whose comma-separated subsystem list contains the
target subsystem, ignoring all later lines (well-formed or not); with
only non-matching well-formed lines, or an unreadable file, it returns
"not found". -/
theorem C7_first_match :
    (∀ (is_sub : String → Bool) (fs : FS) (pre : List String) (line : String)
        (post : List String) (subs path : String),
      fs PROC_CGROUP_FILENAME = some (pre ++ line :: post) →
      (∀ l ∈ pre, (parseCgroupLine l).isSome = true ∧ cgroupLineMatches is_sub l = false) →
      parseCgroupLine line = some (subs, path) →
      cgroupLineMatches is_sub line = true →
      FindCGroupPathForSubsystem is_sub fs = (some path, [PROC_CGROUP_FILENAME])) ∧
    (∀ (is_sub : String → Bool) (fs : FS) (lines : List String),
      fs PROC_CGROUP_FILENAME = some lines →
      (∀ l ∈ lines, (parseCgroupLine l).isSome = true ∧ cgroupLineMatches is_sub l = false) →
      FindCGroupPathForSubsystem is_sub fs = (none, [PROC_CGROUP_FILENAME])) ∧
    (∀ (is_sub : String → Bool) (fs : FS),
      fs PROC_CGROUP_FILENAME = none →
      FindCGroupPathForSubsystem is_sub fs = (none, [PROC_CGROUP_FILENAME])) := by
  refine ⟨?_, ?_, ?_⟩
  · intro is_sub fs pre line post subs path hfs hpre hline hmatch
    simp only [FindCGroupPathForSubsystem, hfs]
    rw [FindCGroupPathLoop_match is_sub pre line post subs path hpre hline hmatch]
  · intro is_sub fs lines hfs hall
    simp only [FindCGroupPathForSubsystem, hfs]
    rw [FindCGroupPathLoop_nomatch is_sub lines hall]
  · intro is_sub fs hfs
    simp only [FindCGroupPathForSubsystem, hfs]

/-- Witness for claim C7: with a non-matching cpu line first and two
memory lines, the first memory line wins and the later one is ignored. -/
theorem C7_first_match_witness :
    FindCGroupPathForSubsystem IsMemorySubsystem fsCgroupTwo =
      (some "/first", [PROC_CGROUP_FILENAME]) :=
  C7_first_match.1 IsMemorySubsystem fsCgroupTwo ["3:cpu:/cpuhier\n"] "2:memory:/first\n"
    ["1:memory:/second\n"] "memory" "/first" (by decide) (by decide) (by decide) (by decide)

/-- Claim C8 (code bug): on a statm line with fewer than two
whitespace-delimited fields the second `strtok_s` result is NULL and the
code passes it to `strtoull`: undefined behaviour (a crash) instead of a
clean failure; on a well-formed line the query returns the second field
times the page size. -/
theorem C8_statm_crash :
    (PAL_GetWorkingSetSize false 4096 fsStatmOne).1 = Except.error () ∧
    (PAL_GetWorkingSetSize false 4096 fsStatmOk).1 = Except.ok (some (678 * 4096)) :=
  ⟨by decide, by decide⟩


theorem minList_nil : minList [] = none := rfl

theorem minList_cons (x : Nat) (xs : List Nat) : minList (x :: xs) = some (xs.foldl min x) := rfl


theorem combineLimits_eq (cg rlim pages pageSize : Option Nat)
    (hcg : ∀ v, cg = some v → v < 2 ^ 64)
    (hrlim : ∀ r, rlim = some r → r < 2 ^ 64)
    (hphys : ∀ a b, pages = some a → pageSize = some b → a * b < 2 ^ 64) :
    combineLimits cg rlim pages pageSize = claimedMemoryLimitAmended cg rlim pages pageSize := by
  rcases cg with _ | v <;> rcases rlim with _ | r <;> rcases pages with _ | a <;>
    rcases pageSize with _ | b
  · simp [combineLimits, claimedMemoryLimitAmended, boundsOfClaim, minList_nil, minList_cons,
      SIZE_T_MAX]
    try split_ifs
    all_goals omega
  · simp [combineLimits, claimedMemoryLimitAmended, boundsOfClaim, minList_nil, minList_cons,
      SIZE_T_MAX]
    try split_ifs
    all_goals omega
  · simp [combineLimits, claimedMemoryLimitAmended, boundsOfClaim, minList_nil, minList_cons,
      SIZE_T_MAX]
    try split_ifs
    all_goals omega
  · have hab : a * b < 2 ^ 64 := hphys a b rfl rfl
    simp [combineLimits, claimedMemoryLimitAmended, boundsOfClaim, minList_nil, minList_cons,
      SIZE_T_MAX]
    try split_ifs
    all_goals omega
  · have hr : r < 2 ^ 64 := hrlim r rfl
    rcases eq_or_ne r SIZE_T_MAX with hR | hR
    · subst hR
      simp [combineLimits, claimedMemoryLimitAmended, boundsOfClaim, minList_nil, minList_cons,
        SIZE_T_MAX]
      try split_ifs
      all_goals omega
    · simp [SIZE_T_MAX] at hR
      simp [combineLimits, claimedMemoryLimitAmended, boundsOfClaim, minList_nil, minList_cons,
        SIZE_T_MAX, hR]
      try split_ifs
      all_goals omega
  · have hr : r < 2 ^ 64 := hrlim r rfl
    rcases eq_or_ne r SIZE_T_MAX with hR | hR
    · subst hR
      simp [combineLimits, claimedMemoryLimitAmended, boundsOfClaim, minList_nil, minList_cons,
        SIZE_T_MAX]
      try split_ifs
      all_goals omega
    · simp [SIZE_T_MAX] at hR
      simp [combineLimits, claimedMemoryLimitAmended, boundsOfClaim, minList_nil, minList_cons,
        SIZE_T_MAX, hR]
      try split_ifs
      all_goals omega
  · have hr : r < 2 ^ 64 := hrlim r rfl
    rcases eq_or_ne r SIZE_T_MAX with hR | hR
    · subst hR
      simp [combineLimits, claimedMemoryLimitAmended, boundsOfClaim, minList_nil, minList_cons,
        SIZE_T_MAX]
      try split_ifs
      all_goals omega
    · simp [SIZE_T_MAX] at hR
      simp [combineLimits, claimedMemoryLimitAmended, boundsOfClaim, minList_nil, minList_cons,
        SIZE_T_MAX, hR]
      try split_ifs
      all_goals omega
  · have hr : r < 2 ^ 64 := hrlim r rfl
    have hab : a * b < 2 ^ 64 := hphys a b rfl rfl
    rcases eq_or_ne r SIZE_T_MAX with hR | hR
    · subst hR
      simp [combineLimits, claimedMemoryLimitAmended, boundsOfClaim, minList_nil, minList_cons,
        SIZE_T_MAX]
      try split_ifs
      all_goals omega
    · simp [SIZE_T_MAX] at hR
      simp [combineLimits, claimedMemoryLimitAmended, boundsOfClaim, minList_nil, minList_cons,
        SIZE_T_MAX, hR]
      try split_ifs
      all_goals omega
  · have hv : v < 2 ^ 64 := hcg v rfl
    simp [combineLimits, claimedMemoryLimitAmended, boundsOfClaim, minList_nil, minList_cons,
      SIZE_T_MAX]
    try split_ifs
    all_goals omega
  · have hv : v < 2 ^ 64 := hcg v rfl
    simp [combineLimits, claimedMemoryLimitAmended, boundsOfClaim, minList_nil, minList_cons,
      SIZE_T_MAX]
    try split_ifs
    all_goals omega
  · have hv : v < 2 ^ 64 := hcg v rfl
    simp [combineLimits, claimedMemoryLimitAmended, boundsOfClaim, minList_nil, minList_cons,
      SIZE_T_MAX]
    try split_ifs
    all_goals omega
  · have hv : v < 2 ^ 64 := hcg v rfl
    have hab : a * b < 2 ^ 64 := hphys a b rfl rfl
    simp [combineLimits, claimedMemoryLimitAmended, boundsOfClaim, minList_nil, minList_cons,
      SIZE_T_MAX]
    try split_ifs
    all_goals omega
  · have hv : v < 2 ^ 64 := hcg v rfl
    have hr : r < 2 ^ 64 := hrlim r rfl
    rcases eq_or_ne r SIZE_T_MAX with hR | hR
    · subst hR
      simp [combineLimits, claimedMemoryLimitAmended, boundsOfClaim, minList_nil, minList_cons,
        SIZE_T_MAX]
      try split_ifs
      all_goals omega
    · simp [SIZE_T_MAX] at hR
      simp [combineLimits, claimedMemoryLimitAmended, boundsOfClaim, minList_nil, minList_cons,
        SIZE_T_MAX, hR]
      try split_ifs
      all_goals omega
  · have hv : v < 2 ^ 64 := hcg v rfl
    have hr : r < 2 ^ 64 := hrlim r rfl
    rcases eq_or_ne r SIZE_T_MAX with hR | hR
    · subst hR
      simp [combineLimits, claimedMemoryLimitAmended, boundsOfClaim, minList_nil, minList_cons,
        SIZE_T_MAX]
      try split_ifs
      all_goals omega
    · simp [SIZE_T_MAX] at hR
      simp [combineLimits, claimedMemoryLimitAmended, boundsOfClaim, minList_nil, minList_cons,
        SIZE_T_MAX, hR]
      try split_ifs
      all_goals omega
  · have hv : v < 2 ^ 64 := hcg v rfl
    have hr : r < 2 ^ 64 := hrlim r rfl
    rcases eq_or_ne r SIZE_T_MAX with hR | hR
    · subst hR
      simp [combineLimits, claimedMemoryLimitAmended, boundsOfClaim, minList_nil, minList_cons,
        SIZE_T_MAX]
      try split_ifs
      all_goals omega
    · simp [SIZE_T_MAX] at hR
      simp [combineLimits, claimedMemoryLimitAmended, boundsOfClaim, minList_nil, minList_cons,
        SIZE_T_MAX, hR]
      try split_ifs
      all_goals omega
  · have hv : v < 2 ^ 64 := hcg v rfl
    have hr : r < 2 ^ 64 := hrlim r rfl
    have hab : a * b < 2 ^ 64 := hphys a b rfl rfl
    rcases eq_or_ne r SIZE_T_MAX with hR | hR
    · subst hR
      simp [combineLimits, claimedMemoryLimitAmended, boundsOfClaim, minList_nil, minList_cons,
        SIZE_T_MAX]
      try split_ifs
      all_goals omega
    · simp [SIZE_T_MAX] at hR
      simp [combineLimits, claimedMemoryLimitAmended, boundsOfClaim, minList_nil, minList_cons,
        SIZE_T_MAX, hR]
      try split_ifs
      all_goals omega

/-- Counterexample to claim C1: when the cgroup read succeeds with the
value `SIZE_T_MAX` and no other source yields a bound, the claim says the
reported limit is that minimum (`SIZE_T_MAX`), but the code reports the
sentinel 0. -/
theorem C1_counterexample :
    ¬ (∀ (fs : FS) (rlim pages pageSize cg : Option Nat),
        cgMemRead fs = Except.ok cg →
        (PAL_GetRestrictedPhysicalMemoryLimit fs rlim pages pageSize).1 =
          Except.ok (claimedMemoryLimit cg rlim pages pageSize)) := by
  intro hclaim
  have h := hclaim fsMemMax none none none (some SIZE_T_MAX) (by decide)
  have hcode : (PAL_GetRestrictedPhysicalMemoryLimit fsMemMax none none none).1 =
      Except.ok 0 := by decide
  rw [hcode] at h
  have hclaimv : claimedMemoryLimit (some SIZE_T_MAX) none none none = SIZE_T_MAX := by decide
  rw [hclaimv] at h
  exact absurd (Except.ok.inj h) (by decide)

/-- Claim C1 as amended: the reported limit is the minimum of the cgroup
limit (when the read succeeds), the address-space soft limit (when
`getrlimit` succeeds and the value is finite) and pages times page size
(when both are queryable), except that a final minimum equal to
`SIZE_T_MAX` is also reported as the sentinel 0 — whether because no
source yielded a bound or because a source yielded exactly `SIZE_T_MAX`. -/
theorem C1_memory_limit_amended (fs : FS) (rlim pages pageSize : Option Nat) (cg : Option Nat)
    (hrlim : ∀ r, rlim = some r → r < 2 ^ 64)
    (hphys : ∀ a b, pages = some a → pageSize = some b → a * b < 2 ^ 64)
    (hcg : cgMemRead fs = Except.ok cg) :
    (PAL_GetRestrictedPhysicalMemoryLimit fs rlim pages pageSize).1 =
      Except.ok (claimedMemoryLimitAmended cg rlim pages pageSize) := by
  rcases hctor : CGroupCtor fs with ⟨res, tr⟩
  rcases res with e | st
  · simp only [cgMemRead, hctor] at hcg
    exact Except.noConfusion hcg
  · simp only [cgMemRead, hctor] at hcg
    have hval := Except.ok.inj hcg
    have hlt : ∀ v, cg = some v → v < 2 ^ 64 := by
      intro v hv
      exact GetPhysicalMemoryLimit_some_lt st.m_memory_cgroup_path fs v (by rw [hval, hv])
    simp only [PAL_GetRestrictedPhysicalMemoryLimit, hctor]
    rw [hval, combineLimits_eq cg rlim pages pageSize hlt hrlim hphys]

/-- Witness for the amended claim C1: a cgroup limit of `SIZE_T_MAX`
together with a finite 4096-byte rlimit reports 4096. -/
theorem C1_memory_limit_amended_witness :
    (PAL_GetRestrictedPhysicalMemoryLimit fsMemMax (some 4096) none none).1 =
      Except.ok (claimedMemoryLimitAmended (some SIZE_T_MAX) (some 4096) none none) :=
  C1_memory_limit_amended fsMemMax (some 4096) none none (some SIZE_T_MAX)
    (by intro r hr; cases hr; decide)
    (by intro a b ha hb; cases ha)
    (by decide)

/-- Counterexample to claim C10: with a null output pointer the CPU-limit
query still touches the file system — the `CGroup` constructor runs
before the NULL check and attempts to open the mount-information file
(once per subsystem). -/
theorem C10_counterexample :
    (PAL_GetCpuLimit true fsAllClosed).2 =
      [PROC_MOUNTINFO_FILENAME, PROC_MOUNTINFO_FILENAME] ∧
    (PAL_GetCpuLimit true fsAllClosed).2 ≠ ([] : List String) :=
  ⟨by decide, by decide⟩

/-- Claim C10 as amended: the working-set query and the internal
byte-count reader check the null output pointer before any file access
and fail with an empty access trace; the CPU-limit query also returns
failure without dereferencing the pointer, but only after the resolver
construction has performed its file reads (its access trace is exactly
the constructor's). -/
theorem C10_null_guard_amended :
    (∀ (pageSize : Nat) (fs : FS),
      PAL_GetWorkingSetSize true pageSize fs = (Except.ok none, [])) ∧
    (∀ (filename : String) (fs : FS),
      ReadMemoryValueFromFile true filename fs = (none, [])) ∧
    (∀ fs : FS, (PAL_GetCpuLimit true fs).2 = (CGroupCtor fs).2 ∧
      ∀ st, (CGroupCtor fs).1 = Except.ok st →
        (PAL_GetCpuLimit true fs).1 = Except.ok none) := by
  refine ⟨fun _ _ => rfl, fun _ _ => rfl, fun fs => ?_⟩
  rcases hctor : CGroupCtor fs with ⟨res, tr⟩
  rcases res with e | st
  · refine ⟨?_, ?_⟩
    · simp only [PAL_GetCpuLimit, hctor]
    · intro st2 hst
      exact Except.noConfusion hst
  · refine ⟨?_, ?_⟩
    · simp only [PAL_GetCpuLimit, hctor]
    · intro st2 hst
      simp only [PAL_GetCpuLimit, hctor]

/-- Witness for the amended claim C10: on a file system where every open
fails, the constructor succeeds with unknown directories and the
null-pointer CPU query returns failure. -/
theorem C10_null_guard_amended_witness :
    (PAL_GetCpuLimit true fsAllClosed).1 = Except.ok none :=
  (C10_null_guard_amended.2.2 fsAllClosed).2 ⟨none, none⟩ (by decide)

end Cgroup
